import Mathlib

/-!
Shallow embedding of the promo_processor rule engine
(src/promo_processor/processor.py and src/promo_processor/processors/*).

Python dictionaries become association lists of string keys and dynamic
values; Python exceptions become an explicit error type threaded through
`Except`; the five case-sensitive regular expressions of the four
processor classes become executable string matchers with the same
leftmost-match search semantics as `re.search`.
-/

namespace PromoProc

/-- A Python value as it occurs in the records this engine manipulates:
a number (int or float, modelled exactly as a rational), a string, or a
boolean. -/
inductive Value where
  | num (q : ℚ)
  | str (s : String)
  | bool (b : Bool)
deriving DecidableEq, Repr

/-- The Python exceptions the embedded code can raise. -/
inductive PyErr where
  | keyError (k : String)
  | typeError
  | valueError
  | zeroDivisionError
  | indexError
deriving DecidableEq, Repr

instance {ε α : Type} [DecidableEq ε] [DecidableEq α] : DecidableEq (Except ε α) :=
  fun a b =>
    match a, b with
    | .ok x, .ok y =>
        if h : x = y then .isTrue (by rw [h])
        else .isFalse (by intro hc; cases hc; exact h rfl)
    | .error e, .error f =>
        if h : e = f then .isTrue (by rw [h])
        else .isFalse (by intro hc; cases hc; exact h rfl)
    | .ok _, .error _ => .isFalse (by intro hc; cases hc)
    | .error _, .ok _ => .isFalse (by intro hc; cases hc)

/-- A record (Python dict with string keys): an association list keeping
insertion order, first binding of a key wins on lookup. -/
abbrev Record := List (String × Value)

/-- `d.get(key)` — lookup returning `none` when the key is absent. -/
def Record.get? : Record → String → Option Value
  | [], _ => none
  | (k, v) :: r, key => if k = key then some v else Record.get? r key

/-- `d[key] = v` — replace in place if present, else append (dict
insertion-order semantics). -/
def Record.set : Record → String → Value → Record
  | [], k, v => [(k, v)]
  | (k0, v0) :: r, k, v => if k0 = k then (k, v) :: r else (k0, v0) :: Record.set r k v

/-- `d[key]` — raising lookup. -/
def Record.getItem (r : Record) (key : String) : Except PyErr Value :=
  match r.get? key with
  | some v => .ok v
  | none => .error (.keyError key)

/-- `d.get(key, default)`. -/
def Record.getD (r : Record) (key : String) (d : Value) : Value :=
  (r.get? key).getD d

/-- Python `round(x, 2)` on exact rationals: round to the nearest
multiple of 1/100. -/
def round2 (q : ℚ) : ℚ := (round (q * 100) : ℤ) / 100

/-- Truthiness of an optional Python value (`None`, `0`, `""`, `False`
are falsy). -/
def truthyO : Option Value → Bool
  | none => false
  | some (.num q) => decide (q ≠ 0)
  | some (.str s) => decide (s ≠ "")
  | some (.bool b) => b

/-- Python `a or b` on optional values. -/
def pyOr (a b : Option Value) : Option Value := if truthyO a then a else b

/-- `\s` for the ASCII whitespace Python recognises. -/
def isWsChar (c : Char) : Bool :=
  c = ' ' || c = '\t' || c = '\n' || c = '\r' || c.toNat = 11 || c.toNat = 12

/-- Numeric value of a digit run (most significant first). -/
def digitsNat (cs : List Char) : Nat :=
  cs.foldl (fun a c => a * 10 + (c.toNat - 48)) 0

/-- Core of Python `float(string)` restricted to the decimal forms the
program can meet: optional sign, integer part, optional fractional part,
yielding the exact rational `±(ip.fp)`. Currency symbols and thousands
separators are NOT accepted (Python `float` rejects them). -/
def pyFloatCore (cs0 : List Char) : Option ℚ :=
  let signed : Int × List Char :=
    match cs0 with
    | '-' :: r => (-1, r)
    | '+' :: r => (1, r)
    | _ => (1, cs0)
  let sign := signed.1
  let cs := signed.2
  let ip := cs.takeWhile Char.isDigit
  let cs1 := cs.dropWhile Char.isDigit
  match cs1 with
  | [] => if ip.isEmpty then none else some (mkRat (sign * digitsNat ip) 1)
  | '.' :: rest =>
      let fp := rest.takeWhile Char.isDigit
      let cs2 := rest.dropWhile Char.isDigit
      if cs2.isEmpty && !(ip.isEmpty && fp.isEmpty) then
        some (mkRat (sign * (digitsNat ip * 10 ^ fp.length + digitsNat fp))
          (10 ^ fp.length))
      else none
  | _ => none

/-- Strip leading and trailing whitespace from a character list. -/
def trimChars (cs : List Char) : List Char :=
  (((cs.dropWhile isWsChar).reverse).dropWhile isWsChar).reverse

/-- Python `float(string)` (leading and trailing whitespace stripped). -/
def pyFloat? (s : String) : Option ℚ := pyFloatCore (trimChars s.data)

/-- `float(s)` raising `ValueError` on parse failure. -/
def pyFloatOfStr (s : String) : Except PyErr ℚ :=
  match pyFloat? s with
  | some q => .ok q
  | none => .error .valueError

/-- `float(v)` on a dynamic value. -/
def pyFloatV : Value → Except PyErr ℚ
  | .num q => .ok q
  | .bool b => .ok (if b then 1 else 0)
  | .str s => pyFloatOfStr s

/-- Python `int(s)` restricted to the digit strings the patterns
capture. -/
def strToNat? (s : String) : Option Nat :=
  if !s.data.isEmpty && s.data.all Char.isDigit then
    some (s.data.foldl (fun n c => n * 10 + (c.toNat - 48)) 0)
  else none

/-- `int(match.group(name))`: `IndexError` if the group does not exist,
`ValueError` if not a digit string. -/
def pyIntOfGroup : Option String → Except PyErr Nat
  | none => .error .indexError
  | some s =>
      match strToNat? s with
      | some n => .ok n
      | none => .error .valueError

/-- `float(match.group(name))`. -/
def pyFloatOfGroup : Option String → Except PyErr ℚ
  | none => .error .indexError
  | some s => pyFloatOfStr s

/-- Python `value * n` for a nonnegative int `n` (string repetition on
strings, never raises for these operand shapes). -/
def vMulNat (v : Value) (n : Nat) : Value :=
  match v with
  | .num q => .num (q * n)
  | .str s => .str ((List.replicate n s).foldl (· ++ ·) "")
  | .bool b => .num ((if b then (1 : ℚ) else 0) * n)

/-- Python `value * x` for a float `x` (`TypeError` on strings). -/
def vMulRat (v : Value) (x : ℚ) : Except PyErr Value :=
  match v with
  | .num q => .ok (.num (q * x))
  | .bool b => .ok (.num ((if b then (1 : ℚ) else 0) * x))
  | .str _ => .error .typeError

/-- Python `x * value` for a float `x` on the left (`TypeError` on
strings). -/
def ratMulV (x : ℚ) (v : Value) : Except PyErr Value :=
  match v with
  | .num q => .ok (.num (x * q))
  | .bool b => .ok (.num (x * (if b then (1 : ℚ) else 0)))
  | .str _ => .error .typeError

/-- Python `a + b` on dynamic values. -/
def vAddV : Value → Value → Except PyErr Value
  | .num a, .num b => .ok (.num (a + b))
  | .num a, .bool b => .ok (.num (a + (if b then 1 else 0)))
  | .bool a, .num b => .ok (.num ((if a then 1 else 0) + b))
  | .bool a, .bool b => .ok (.num ((if a then (1 : ℚ) else 0) + (if b then 1 else 0)))
  | .str a, .str b => .ok (.str (a ++ b))
  | _, _ => .error .typeError

/-- Python `a - b` on dynamic values (`TypeError` on any string). -/
def vSubV : Value → Value → Except PyErr Value
  | .num a, .num b => .ok (.num (a - b))
  | .num a, .bool b => .ok (.num (a - (if b then 1 else 0)))
  | .bool a, .num b => .ok (.num ((if a then 1 else 0) - b))
  | .bool a, .bool b => .ok (.num ((if a then (1 : ℚ) else 0) - (if b then 1 else 0)))
  | _, _ => .error .typeError

/-- Python `value - x` for a float `x`. -/
def vSubRat (v : Value) (x : ℚ) : Except PyErr Value :=
  match v with
  | .num q => .ok (.num (q - x))
  | .bool b => .ok (.num ((if b then (1 : ℚ) else 0) - x))
  | .str _ => .error .typeError

/-- Python `value / n` for an int `n` (`ZeroDivisionError` on 0,
`TypeError` on strings). -/
def vDivNat (v : Value) (n : Nat) : Except PyErr Value :=
  match v with
  | .num q => if n = 0 then .error .zeroDivisionError else .ok (.num (q / n))
  | .bool b =>
      if n = 0 then .error .zeroDivisionError
      else .ok (.num ((if b then (1 : ℚ) else 0) / n))
  | .str _ => .error .typeError

/-- Python `round(value, 2)` (`TypeError` on strings). -/
def pyRound2V (v : Value) : Except PyErr Value :=
  match v with
  | .num q => .ok (.num (round2 q))
  | .bool b => .ok (.num (if b then 1 else 0))
  | .str _ => .error .typeError

/-! ## The five regular expressions of the four processor classes

Each pattern is compiled to a deterministic matcher at a fixed start
position, plus a leftmost-start search driver mirroring `re.search`.
Matching is CASE-SENSITIVE, as in the source (`re.search` is called
without `re.IGNORECASE`). -/

/-- The named capture groups any of the five patterns can produce
(`match.groupdict()`): a group is `none` when the pattern has no such
group or did not capture. -/
structure Groups where
  quantity : Option String
  free : Option String
  discount : Option String
  savings : Option String
  price_per_lb : Option String
deriving DecidableEq, Repr

/-- Match a literal; return the rest of the input. -/
def dropLit : List Char → List Char → Option (List Char)
  | [], s => some s
  | _ :: _, [] => none
  | c :: cs, d :: ds => if c = d then dropLit cs ds else none

/-- `\s+` greedy. -/
def ws1 : List Char → Option (List Char)
  | [] => none
  | c :: cs => if isWsChar c then some (cs.dropWhile isWsChar) else none

/-- `\d+` greedy, capturing the digit run. -/
def digits1 (s : List Char) : Option (String × List Char) :=
  let ds := s.takeWhile Char.isDigit
  if ds.isEmpty then none else some (⟨ds⟩, s.dropWhile Char.isDigit)

/-- `(?:\.\d{2})?` after a captured integer part: consume a dot and
exactly two digits when present. -/
def optFrac2 (d : String) (s : List Char) : String × List Char :=
  match s with
  | '.' :: a :: b :: rest =>
      if a.isDigit && b.isDigit then (d ++ "." ++ ⟨[a, b]⟩, rest) else (d, s)
  | _ => (d, s)

/-- `(?:\.\d+)?` after a captured integer part. -/
def optFracAny (d : String) (s : List Char) : String × List Char :=
  match s with
  | '.' :: rest =>
      match digits1 rest with
      | some (f, r2) => (d ++ "." ++ f, r2)
      | none => (d, s)
  | _ => (d, s)

/-- `Buy\s+(?P<quantity>\d+),?\s+Get\s+(?P<free>\d+)\s+Free` at a fixed
start position. -/
def matchBuyGetFreeAt (s0 : List Char) : Option Groups :=
  (dropLit "Buy".data s0).bind fun s1 =>
  (ws1 s1).bind fun s2 =>
  (digits1 s2).bind fun qr =>
  let s3 := match qr.2 with
    | ',' :: r => r
    | _ => qr.2
  (ws1 s3).bind fun s4 =>
  (dropLit "Get".data s4).bind fun s5 =>
  (ws1 s5).bind fun s6 =>
  (digits1 s6).bind fun fr =>
  (ws1 fr.2).bind fun s7 =>
  (dropLit "Free".data s7).bind fun _ =>
  some ⟨some qr.1, some fr.1, none, none, none⟩

/-- `Buy\s+(?P<quantity>\d+),\s+get\s+(?P<free>\d+)\s+(?P<discount>\d+)%\s+off`
at a fixed start position. -/
def matchBuyGetDiscountAt (s0 : List Char) : Option Groups :=
  (dropLit "Buy".data s0).bind fun s1 =>
  (ws1 s1).bind fun s2 =>
  (digits1 s2).bind fun qr =>
  (dropLit ",".data qr.2).bind fun s3 =>
  (ws1 s3).bind fun s4 =>
  (dropLit "get".data s4).bind fun s5 =>
  (ws1 s5).bind fun s6 =>
  (digits1 s6).bind fun fr =>
  (ws1 fr.2).bind fun s7 =>
  (digits1 s7).bind fun dr =>
  (dropLit "%".data dr.2).bind fun s8 =>
  (ws1 s8).bind fun s9 =>
  (dropLit "off".data s9).bind fun _ =>
  some ⟨some qr.1, some fr.1, some dr.1, none, none⟩

/-- `Save\s+\$(?P<savings>\d+(?:\.\d{2})?)` at a fixed start position. -/
def matchSavingsAt (s0 : List Char) : Option Groups :=
  (dropLit "Save".data s0).bind fun s1 =>
  (ws1 s1).bind fun s2 =>
  (dropLit "$".data s2).bind fun s3 =>
  (digits1 s3).bind fun dr =>
  let cap := optFrac2 dr.1 dr.2
  some ⟨none, none, none, some cap.1, none⟩

/-- `\$(?P<discount>\d+(?:\.\d+)?)\s+off` at a fixed start position. -/
def matchDollarOffAt (s0 : List Char) : Option Groups :=
  (dropLit "$".data s0).bind fun s1 =>
  (digits1 s1).bind fun dr =>
  let cap := optFracAny dr.1 dr.2
  (ws1 cap.2).bind fun s2 =>
  (dropLit "off".data s2).bind fun _ =>
  some ⟨none, none, some cap.1, none, none⟩

/-- `\$(?P<price_per_lb>\d+(?:\.\d{2})?)\/lb` at a fixed start
position. -/
def matchPricePerLbAt (s0 : List Char) : Option Groups :=
  (dropLit "$".data s0).bind fun s1 =>
  (digits1 s1).bind fun dr =>
  let cap := optFrac2 dr.1 dr.2
  (dropLit "/lb".data cap.2).bind fun _ =>
  some ⟨none, none, none, none, some cap.1⟩

/-- `re.search`: try the matcher at every start position, leftmost
first. -/
def searchAt (m : List Char → Option Groups) : List Char → Option Groups
  | [] => m []
  | c :: rest =>
      match m (c :: rest) with
      | some g => some g
      | none => searchAt m rest

/-- Identifier of one of the five catalog patterns, in the order they
appear in the four processor classes. -/
inductive Pat where
  | buyGetFree
  | buyGetDiscount
  | savePromo
  | dollarOff
  | pricePerLb
deriving DecidableEq, Repr

/-- `re.search(pattern, description)` for each catalog pattern. -/
def Pat.search : Pat → String → Option Groups
  | .buyGetFree, s => searchAt matchBuyGetFreeAt s.data
  | .buyGetDiscount, s => searchAt matchBuyGetDiscountAt s.data
  | .savePromo, s => searchAt matchSavingsAt s.data
  | .dollarOff, s => searchAt matchDollarOffAt s.data
  | .pricePerLb, s => searchAt matchPricePerLbAt s.data

/-! ## The four processor classes (src/promo_processor/processors/) -/

/-- A processor subclass: its pattern list and its two strategy
methods. -/
structure Strategy where
  patterns : List Pat
  calculate_deal : Record → Groups → Except PyErr Record
  calculate_coupon : Record → Groups → Except PyErr Record

/-- Tail of `BuyGetFreeProcessor.calculate_deal`: divide, round, store
(`unit_price = volume_deals_price / total_quantity` before the three
assignments). -/
def finishBuyGetDeal (item : Record) (volume_deals_price : Value)
    (total_quantity : Nat) : Except PyErr Record :=
  match vDivNat volume_deals_price total_quantity with
  | .error e => .error e
  | .ok unit_price =>
  match pyRound2V volume_deals_price with
  | .error e => .error e
  | .ok vdp2 =>
  match pyRound2V unit_price with
  | .error e => .error e
  | .ok up2 =>
      .ok (((item.set "volume_deals_price" vdp2).set "unit_price" up2).set
        "digital_coupon_price" (.str ""))

/-- `BuyGetFreeProcessor.calculate_deal`. -/
def BuyGetFreeProcessor.calculate_deal (item : Record) (m : Groups) :
    Except PyErr Record :=
  match pyIntOfGroup m.quantity with
  | .error e => .error e
  | .ok quantity =>
  match pyIntOfGroup m.free with
  | .error e => .error e
  | .ok free =>
  match m.discount with
  | some ds =>
      match pyIntOfGroup (some ds) with
      | .error e => .error e
      | .ok d =>
          let discount_decimal : ℚ := (d : ℚ) / 100
          match item.getItem "regular_price" with
          | .error e => .error e
          | .ok rp =>
              let full_price_total := vMulNat rp quantity
              match vMulRat rp (1 - discount_decimal) with
              | .error e => .error e
              | .ok tmp =>
                  let discounted_total := vMulNat tmp free
                  match vAddV full_price_total discounted_total with
                  | .error e => .error e
                  | .ok volume_deals_price =>
                      finishBuyGetDeal item volume_deals_price (quantity + free)
  | none =>
      match item.getItem "regular_price" with
      | .error e => .error e
      | .ok rp =>
          finishBuyGetDeal item (vMulNat rp quantity) (quantity + free)

/-- The inline base-price chain of `BuyGetFreeProcessor.calculate_coupon`:
`item_data.get('unit_price') or item_data.get("sale_price") or
item_data.get("regular_price", 0)`. -/
def couponBase (item : Record) : Value :=
  (pyOr (item.get? "unit_price")
    (pyOr (item.get? "sale_price")
      (some ((item.get? "regular_price").getD (.num 0))))).getD (.num 0)

/-- `price = float(price) if price else 0` applied to the base-price
chain. -/
def couponPrice (item : Record) : Except PyErr ℚ :=
  let price := couponBase item
  if truthyO (some price) then pyFloatV price else .ok 0

/-- Tail of `BuyGetFreeProcessor.calculate_coupon`: divide, round, store
`unit_price` rounded and `digital_coupon_price` UNROUNDED. -/
def finishBuyGetCoupon (item : Record) (volume_deals_price : ℚ)
    (total_quantity : Nat) : Except PyErr Record :=
  if total_quantity = 0 then .error .zeroDivisionError
  else
    let unit_price := volume_deals_price / total_quantity
    .ok ((item.set "unit_price" (.num (round2 unit_price))).set
      "digital_coupon_price" (.num volume_deals_price))

/-- `BuyGetFreeProcessor.calculate_coupon`. -/
def BuyGetFreeProcessor.calculate_coupon (item : Record) (m : Groups) :
    Except PyErr Record :=
  match pyIntOfGroup m.quantity with
  | .error e => .error e
  | .ok quantity =>
  match pyIntOfGroup m.free with
  | .error e => .error e
  | .ok free =>
  match m.discount with
  | some ds =>
      match pyIntOfGroup (some ds) with
      | .error e => .error e
      | .ok d =>
          let discount_decimal : ℚ := (d : ℚ) / 100
          match couponPrice item with
          | .error e => .error e
          | .ok price =>
              let full_price_total := price * quantity
              let discounted_total := price * (1 - discount_decimal) * free
              finishBuyGetCoupon item (full_price_total + discounted_total)
                (quantity + free)
  | none =>
      match couponPrice item with
      | .error e => .error e
      | .ok price =>
          finishBuyGetCoupon item (price * quantity) (quantity + free)

/-- The `BuyGetFreeProcessor` subclass. -/
def BuyGetFreeProcessor : Strategy :=
  ⟨[.buyGetFree, .buyGetDiscount],
    BuyGetFreeProcessor.calculate_deal, BuyGetFreeProcessor.calculate_coupon⟩

/-- `PricePerLbProcessor.calculate_deal`: the raw `weight` field (default
1) is multiplied directly, with no parsing of strings. -/
def PricePerLbProcessor.calculate_deal (item : Record) (m : Groups) :
    Except PyErr Record :=
  match pyFloatOfGroup m.price_per_lb with
  | .error e => .error e
  | .ok price_per_lb =>
      let weight := item.getD "weight" (.num 1)
      match ratMulV price_per_lb weight with
      | .error e => .error e
      | .ok total_price =>
          match pyRound2V total_price with
          | .error e => .error e
          | .ok tp2 =>
              .ok (((item.set "volume_deals_price" tp2).set "unit_price"
                (.num (round2 price_per_lb))).set "digital_coupon_price" (.str ""))

/-- `PricePerLbProcessor.calculate_coupon`: note the unguarded
`item_data['unit_price']` lookup (KeyError when absent). -/
def PricePerLbProcessor.calculate_coupon (item : Record) (m : Groups) :
    Except PyErr Record :=
  match pyFloatOfGroup m.price_per_lb with
  | .error e => .error e
  | .ok price_per_lb =>
      let weight := item.getD "weight" (.num 1)
      match item.getItem "unit_price" with
      | .error e => .error e
      | .ok up =>
          match ratMulV price_per_lb weight with
          | .error e => .error e
          | .ok prod =>
              match vSubV up prod with
              | .error e => .error e
              | .ok diff =>
                  match pyRound2V diff with
                  | .error e => .error e
                  | .ok unit_price =>
                      .ok ((item.set "unit_price" unit_price).set
                        "digital_coupon_price" (.num price_per_lb))

/-- The `PricePerLbProcessor` subclass. -/
def PricePerLbProcessor : Strategy :=
  ⟨[.pricePerLb],
    PricePerLbProcessor.calculate_deal, PricePerLbProcessor.calculate_coupon⟩

/-- Shared tail of the Savings and DollarDiscount deal calculations:
`volume_deals_price` rounded, `unit_price = round(volume_deals_price / 1, 2)`,
empty coupon sentinel. -/
def finishFlatDeal (item : Record) (volume_deals_price : Value) :
    Except PyErr Record :=
  match pyRound2V volume_deals_price with
  | .error e => .error e
  | .ok vdp2 =>
      match vDivNat volume_deals_price 1 with
      | .error e => .error e
      | .ok q1 =>
          match pyRound2V q1 with
          | .error e => .error e
          | .ok up2 =>
              .ok (((item.set "volume_deals_price" vdp2).set
                "unit_price" up2).set "digital_coupon_price" (.str ""))

/-- Shared tail of the Savings and DollarDiscount coupon calculations:
`unit_price = round(volume_deals_price / 1, 2)` and the rounded amount
stored as `digital_coupon_price`. -/
def finishFlatCoupon (item : Record) (volume_deals_price : Value)
    (amount : ℚ) : Except PyErr Record :=
  match vDivNat volume_deals_price 1 with
  | .error e => .error e
  | .ok q1 =>
      match pyRound2V q1 with
      | .error e => .error e
      | .ok up2 =>
          .ok ((item.set "unit_price" up2).set
            "digital_coupon_price" (.num (round2 amount)))

/-- `SavingsProcessor.calculate_deal`: raw `price` field, default 0. -/
def SavingsProcessor.calculate_deal (item : Record) (m : Groups) :
    Except PyErr Record :=
  match pyFloatOfGroup m.savings with
  | .error e => .error e
  | .ok savings_value =>
      let price := item.getD "price" (.num 0)
      match vSubRat price savings_value with
      | .error e => .error e
      | .ok volume_deals_price => finishFlatDeal item volume_deals_price

/-- `SavingsProcessor.calculate_coupon`: base is the raw `unit_price`
field, default 0. -/
def SavingsProcessor.calculate_coupon (item : Record) (m : Groups) :
    Except PyErr Record :=
  match pyFloatOfGroup m.savings with
  | .error e => .error e
  | .ok savings_value =>
      let price := item.getD "unit_price" (.num 0)
      match vSubRat price savings_value with
      | .error e => .error e
      | .ok volume_deals_price =>
          finishFlatCoupon item volume_deals_price savings_value

/-- The `SavingsProcessor` subclass. -/
def SavingsProcessor : Strategy :=
  ⟨[.savePromo],
    SavingsProcessor.calculate_deal, SavingsProcessor.calculate_coupon⟩

/-- `DollarDiscountProcessor.calculate_deal`: raw `price` field, default
0. -/
def DollarDiscountProcessor.calculate_deal (item : Record) (m : Groups) :
    Except PyErr Record :=
  match pyFloatOfGroup m.discount with
  | .error e => .error e
  | .ok discount_value =>
      let price := item.getD "price" (.num 0)
      match vSubRat price discount_value with
      | .error e => .error e
      | .ok volume_deals_price => finishFlatDeal item volume_deals_price

/-- `DollarDiscountProcessor.calculate_coupon`: note it reads the raw
`price` field again, not `unit_price`. -/
def DollarDiscountProcessor.calculate_coupon (item : Record) (m : Groups) :
    Except PyErr Record :=
  match pyFloatOfGroup m.discount with
  | .error e => .error e
  | .ok discount_value =>
      let price := item.getD "price" (.num 0)
      match vSubRat price discount_value with
      | .error e => .error e
      | .ok volume_deals_price =>
          finishFlatCoupon item volume_deals_price discount_value

/-- The `DollarDiscountProcessor` subclass. -/
def DollarDiscountProcessor : Strategy :=
  ⟨[.dollarOff],
    DollarDiscountProcessor.calculate_deal, DollarDiscountProcessor.calculate_coupon⟩

/-- `PromoProcessor.subclasses`: the registered processor classes, in
registration order. -/
def subclasses : List Strategy :=
  [BuyGetFreeProcessor, PricePerLbProcessor, SavingsProcessor, DollarDiscountProcessor]

/-! ## PromoProcessor.process_single_item (src/promo_processor/processor.py) -/

/-- The inner pattern loop: first pattern of this processor that
matches the description wins. -/
def tryPatterns (pats : List Pat) (desc : String) : Option Groups :=
  match pats with
  | [] => none
  | p :: rest =>
      match p.search desc with
      | some g => some g
      | none => tryPatterns rest desc

/-- `updated_item.get(key, "")` fed to `re.search`: a non-string value
raises `TypeError` inside `re.search`. -/
def getDesc (item : Record) (key : String) : Except PyErr String :=
  match item.getD key (.str "") with
  | .str s => .ok s
  | _ => .error .typeError

/-- The deal pass: processors in registration order; the first
processor having a matching pattern runs `calculate_deal`, then both
loops break. -/
def dealLoop (cats : List Strategy) (item : Record) : Except PyErr Record :=
  match cats with
  | [] => .ok item
  | s :: rest =>
      match getDesc item "volume_deals_description" with
      | .error e => .error e
      | .ok desc =>
          match tryPatterns s.patterns desc with
          | some g => s.calculate_deal item g
          | none => dealLoop rest item

/-- The coupon pass, identical over
`digital_coupon_short_description` and `calculate_coupon`. -/
def couponLoop (cats : List Strategy) (item : Record) : Except PyErr Record :=
  match cats with
  | [] => .ok item
  | s :: rest =>
      match getDesc item "digital_coupon_short_description" with
      | .error e => .error e
      | .ok desc =>
          match tryPatterns s.patterns desc with
          | some g => s.calculate_coupon item g
          | none => couponLoop rest item

/-- `PromoProcessor.process_single_item`: deal pass, then coupon pass on
the updated record; exceptions are NOT caught. -/
def process_single_item (cats : List Strategy) (item_data : Record) :
    Except PyErr Record :=
  match dealLoop cats item_data with
  | .error e => .error e
  | .ok updated => couponLoop cats updated

/-! ## apply_store_brands and process_item -/

/-- The four hardcoded store-brand lists, flattened in dict order
(marianos, target, jewel, walmart). -/
def store_brands : List String :=
  ["Private Selection", "Kroger", "Simple Truth", "Simple Truth Organic",
   "Deal Worthy", "Good & Gather", "Market Pantry", "Favorite Day", "Kindfull",
   "Smartly", "Up & Up",
   "Lucerne", "Signature Select", "O Organics", "Open Nature",
   "Waterfront Bistro", "Primo Taglio", "Soleil", "Value Corner", "Ready Meals",
   "Clear American", "Great Value", "Home Bake Value", "Marketside",
   "Co Squared", "Best Occasions", "Mash-Up Coffee", "World Table"]

/-- ASCII lower-casing (`str.casefold` on the ASCII brand names). -/
def lcChar (c : Char) : Char :=
  if 'A' ≤ c && c ≤ 'Z' then Char.ofNat (c.toNat + 32) else c

/-- Lower-case a character list. -/
def lcList (cs : List Char) : List Char := cs.map lcChar

/-- Whether the first list is an initial segment of the second. -/
def leadsWith : List Char → List Char → Bool
  | [], _ => true
  | _ :: _, [] => false
  | a :: as, b :: bs => a = b && leadsWith as bs

/-- Python `needle in haystack` for strings as character lists. -/
def occursIn (needle : List Char) : List Char → Bool
  | [] => leadsWith needle []
  | c :: rest => leadsWith needle (c :: rest) || occursIn needle rest

/-- `PromoProcessor.apply_store_brands`: sets `brandStatus` from a
case-insensitive substring test of `product_title` against the brand
lists. -/
def apply_store_brands (item : Record) : Except PyErr Record :=
  match item.getItem "product_title" with
  | .error e => .error e
  | .ok v =>
      match v with
      | .str title =>
          let hits := store_brands.filter
            (fun b => occursIn (lcList b.data) (lcList title.data))
          .ok (item.set "brandStatus" (.bool (!hits.isEmpty)))
      | _ => .error .typeError

/-- `PromoProcessor.process_item` on a list: process each record, then
tag it; the accumulated output, in input order. An exception anywhere
aborts the whole call. -/
def process_item (cats : List Strategy) (items : List Record) :
    Except PyErr (List Record) :=
  match items with
  | [] => .ok []
  | it :: rest =>
      match process_single_item cats it with
      | .error e => .error e
      | .ok r =>
          match apply_store_brands r with
          | .error e => .error e
          | .ok r2 =>
              match process_item cats rest with
              | .error e => .error e
              | .ok rs => .ok (r2 :: rs)

/-- The flattened catalog: every (processor, pattern) pair in
registration order — outer order the subclass registration, inner order
each processor's pattern list. -/
def flatCatalog (cats : List Strategy) : List (Strategy × Pat) :=
  cats.flatMap fun s => s.patterns.map fun p => (s, p)

/-! ## Basic lemmas about records and the pattern loops -/

/-- Setting one key leaves every other key's binding unchanged. -/
theorem get?_set_ne (r : Record) (k k' : String) (v : Value) (h : k ≠ k') :
    (r.set k v).get? k' = r.get? k' := by
  induction r with
  | nil => simp [Record.set, Record.get?, h]
  | cons kv rest ih =>
      by_cases hk : kv.1 = k
      · simp [Record.set, hk, Record.get?, h, ih]
      · simp [Record.set, hk, Record.get?, ih]

/-- Setting a key makes lookup of that key return the new value. -/
theorem get?_set_self (r : Record) (k : String) (v : Value) :
    (r.set k v).get? k = some v := by
  induction r with
  | nil => simp [Record.set, Record.get?]
  | cons kv rest ih =>
      by_cases hk : kv.1 = k
      · simp [Record.set, hk, Record.get?]
      · simp [Record.set, hk, Record.get?, ih]

/-- If the inner pattern loop returns groups, they come from the first
pattern of the list that matches. -/
theorem tryPatterns_some {pats : List Pat} {d : String} {g : Groups}
    (h : tryPatterns pats d = some g) :
    ∃ p, pats.find? (fun p => (p.search d).isSome) = some p ∧ p.search d = some g := by
  induction pats with
  | nil => simp [tryPatterns] at h
  | cons p0 rest ih =>
      cases hs : p0.search d with
      | some g0 =>
          simp [tryPatterns, hs] at h
          exact ⟨p0, by simp [List.find?_cons, hs], by rw [hs, h]⟩
      | none =>
          simp only [tryPatterns, hs] at h
          obtain ⟨p, hf, hg⟩ := ih h
          exact ⟨p, by simp [List.find?_cons, hs, hf], hg⟩

/-- If the inner pattern loop fails, no pattern of the list matches. -/
theorem tryPatterns_none {pats : List Pat} {d : String}
    (h : tryPatterns pats d = none) :
    pats.find? (fun p => (p.search d).isSome) = none := by
  induction pats with
  | nil => simp
  | cons p0 rest ih =>
      cases hs : p0.search d with
      | some g0 => simp [tryPatterns, hs] at h
      | none =>
          simp only [tryPatterns, hs] at h
          simp [List.find?_cons, hs, ih h]

/-- Converse: the first matching pattern's groups are what the inner
loop returns. -/
theorem tryPatterns_of_find {pats : List Pat} {d : String} {p : Pat} {g : Groups}
    (hf : pats.find? (fun p => (p.search d).isSome) = some p)
    (hg : p.search d = some g) :
    tryPatterns pats d = some g := by
  induction pats with
  | nil => simp at hf
  | cons p0 rest ih =>
      cases hs : p0.search d with
      | some g0 =>
          simp [List.find?_cons, hs] at hf
          subst hf
          rw [hs] at hg
          simp [tryPatterns, hs, hg]
      | none =>
          simp [List.find?_cons, hs] at hf
          simp [tryPatterns, hs, ih hf]

/-- The deal pass is governed by the first match over the flattened
catalog: none matching means the pass is the identity; otherwise exactly
the first matching entry's `calculate_deal` runs. -/
theorem dealLoop_flat (cats : List Strategy) (item : Record) (d : String)
    (hd : getDesc item "volume_deals_description" = .ok d) :
    ((flatCatalog cats).find? (fun sp => (sp.2.search d).isSome) = none →
      dealLoop cats item = .ok item) ∧
    (∀ s p g, (flatCatalog cats).find? (fun sp => (sp.2.search d).isSome) = some (s, p) →
      p.search d = some g → dealLoop cats item = s.calculate_deal item g) := by
  induction cats with
  | nil =>
      refine ⟨fun _ => rfl, fun s p g hf _ => ?_⟩
      simp [flatCatalog] at hf
  | cons s0 rest ih =>
      have hflat : flatCatalog (s0 :: rest) =
          s0.patterns.map (fun p => (s0, p)) ++ flatCatalog rest := by
        simp [flatCatalog]
      cases htp : tryPatterns s0.patterns d with
      | some g0 =>
          obtain ⟨p0, hf0, hg0⟩ := tryPatterns_some htp
          have hfind : (flatCatalog (s0 :: rest)).find?
              (fun sp => (sp.2.search d).isSome) = some (s0, p0) := by
            rw [hflat, List.find?_append, List.find?_map]
            have : (List.find? ((fun sp => (Pat.search sp.2 d).isSome) ∘ fun p => (s0, p))
                s0.patterns) = some p0 := hf0
            rw [this]
            rfl
          refine ⟨fun hn => ?_, fun s p g hf hg => ?_⟩
          · rw [hfind] at hn; cases hn
          · rw [hfind] at hf
            have hs : s = s0 ∧ p = p0 := by
              cases hf; exact ⟨rfl, rfl⟩
            obtain ⟨rfl, rfl⟩ := hs
            rw [hg0] at hg
            cases hg
            simp [dealLoop, hd, htp]
      | none =>
          have h0 := tryPatterns_none htp
          have hfind : (flatCatalog (s0 :: rest)).find?
              (fun sp => (sp.2.search d).isSome) =
              (flatCatalog rest).find? (fun sp => (sp.2.search d).isSome) := by
            rw [hflat, List.find?_append, List.find?_map]
            have : (List.find? ((fun sp => (Pat.search sp.2 d).isSome) ∘ fun p => (s0, p))
                s0.patterns) = none := h0
            rw [this]
            rfl
          have hloop : dealLoop (s0 :: rest) item = dealLoop rest item := by
            simp [dealLoop, hd, htp]
          rw [hfind, hloop]
          exact ih

/-- The coupon pass is governed in the same way by the first match over
the flattened catalog, running `calculate_coupon`. -/
theorem couponLoop_flat (cats : List Strategy) (item : Record) (d : String)
    (hd : getDesc item "digital_coupon_short_description" = .ok d) :
    ((flatCatalog cats).find? (fun sp => (sp.2.search d).isSome) = none →
      couponLoop cats item = .ok item) ∧
    (∀ s p g, (flatCatalog cats).find? (fun sp => (sp.2.search d).isSome) = some (s, p) →
      p.search d = some g → couponLoop cats item = s.calculate_coupon item g) := by
  induction cats with
  | nil =>
      refine ⟨fun _ => rfl, fun s p g hf _ => ?_⟩
      simp [flatCatalog] at hf
  | cons s0 rest ih =>
      have hflat : flatCatalog (s0 :: rest) =
          s0.patterns.map (fun p => (s0, p)) ++ flatCatalog rest := by
        simp [flatCatalog]
      cases htp : tryPatterns s0.patterns d with
      | some g0 =>
          obtain ⟨p0, hf0, hg0⟩ := tryPatterns_some htp
          have hfind : (flatCatalog (s0 :: rest)).find?
              (fun sp => (sp.2.search d).isSome) = some (s0, p0) := by
            rw [hflat, List.find?_append, List.find?_map]
            have : (List.find? ((fun sp => (Pat.search sp.2 d).isSome) ∘ fun p => (s0, p))
                s0.patterns) = some p0 := hf0
            rw [this]
            rfl
          refine ⟨fun hn => ?_, fun s p g hf hg => ?_⟩
          · rw [hfind] at hn; cases hn
          · rw [hfind] at hf
            have hs : s = s0 ∧ p = p0 := by
              cases hf; exact ⟨rfl, rfl⟩
            obtain ⟨rfl, rfl⟩ := hs
            rw [hg0] at hg
            cases hg
            simp [couponLoop, hd, htp]
      | none =>
          have h0 := tryPatterns_none htp
          have hfind : (flatCatalog (s0 :: rest)).find?
              (fun sp => (sp.2.search d).isSome) =
              (flatCatalog rest).find? (fun sp => (sp.2.search d).isSome) := by
            rw [hflat, List.find?_append, List.find?_map]
            have : (List.find? ((fun sp => (Pat.search sp.2 d).isSome) ∘ fun p => (s0, p))
                s0.patterns) = none := h0
            rw [this]
            rfl
          have hloop : couponLoop (s0 :: rest) item = couponLoop rest item := by
            simp [couponLoop, hd, htp]
          rw [hfind, hloop]
          exact ih

/-! ## Shape of successful strategy results -/

/-- A successful `round(·, 2)` always yields a number of the form
`round2 a`. -/
theorem pyRound2V_shape {v x : Value} (h : pyRound2V v = .ok x) :
    ∃ a : ℚ, x = .num (round2 a) := by
  cases v with
  | num q =>
      refine ⟨q, ?_⟩
      simp [pyRound2V] at h
      exact h.symm
  | bool b =>
      cases b
      · refine ⟨0, ?_⟩
        simp [pyRound2V] at h
        rw [← h]
        norm_num [round2]
      · refine ⟨1, ?_⟩
        simp [pyRound2V] at h
        rw [← h]
        norm_num [round2]
  | str s => simp [pyRound2V] at h

/-- What a successful deal calculation looks like: the input record with
`volume_deals_price` and `unit_price` set to rounded numbers and
`digital_coupon_price` set to the empty-string sentinel. -/
def DealShape (f : Record → Groups → Except PyErr Record) : Prop :=
  ∀ item g r, f item g = .ok r →
    ∃ a b : ℚ, r = ((item.set "volume_deals_price" (.num (round2 a))).set
      "unit_price" (.num (round2 b))).set "digital_coupon_price" (.str "")

/-- What a successful coupon calculation looks like: the input record
with `unit_price` and `digital_coupon_price` set. -/
def CouponShape (f : Record → Groups → Except PyErr Record) : Prop :=
  ∀ item g r, f item g = .ok r →
    ∃ u dv : Value, r = (item.set "unit_price" u).set "digital_coupon_price" dv

theorem finishBuyGetDeal_shape {item : Record} {v : Value} {n : Nat} {r : Record}
    (h : finishBuyGetDeal item v n = .ok r) :
    ∃ a b : ℚ, r = ((item.set "volume_deals_price" (.num (round2 a))).set
      "unit_price" (.num (round2 b))).set "digital_coupon_price" (.str "") := by
  unfold finishBuyGetDeal at h
  split at h
  · exact Except.noConfusion h
  · split at h
    · exact Except.noConfusion h
    · rename_i up hdiv vdp2 hvdp
      split at h
      · exact Except.noConfusion h
      · rename_i up2 hup
        obtain ⟨a, ha⟩ := pyRound2V_shape hvdp
        obtain ⟨b, hb⟩ := pyRound2V_shape hup
        cases h
        exact ⟨a, b, by rw [ha, hb]⟩

theorem finishFlatDeal_shape {item : Record} {v : Value} {r : Record}
    (h : finishFlatDeal item v = .ok r) :
    ∃ a b : ℚ, r = ((item.set "volume_deals_price" (.num (round2 a))).set
      "unit_price" (.num (round2 b))).set "digital_coupon_price" (.str "") := by
  unfold finishFlatDeal at h
  split at h
  · exact Except.noConfusion h
  · rename_i vdp2 hvdp
    split at h
    · exact Except.noConfusion h
    · split at h
      · exact Except.noConfusion h
      · rename_i q1 hdiv up2 hup
        obtain ⟨a, ha⟩ := pyRound2V_shape hvdp
        obtain ⟨b, hb⟩ := pyRound2V_shape hup
        cases h
        exact ⟨a, b, by rw [ha, hb]⟩

theorem finishBuyGetCoupon_shape {item : Record} {v : ℚ} {n : Nat} {r : Record}
    (h : finishBuyGetCoupon item v n = .ok r) :
    ∃ u dv : Value, r = (item.set "unit_price" u).set "digital_coupon_price" dv := by
  unfold finishBuyGetCoupon at h
  split at h
  · exact Except.noConfusion h
  · cases h
    exact ⟨_, _, rfl⟩

theorem finishFlatCoupon_shape {item : Record} {v : Value} {x : ℚ} {r : Record}
    (h : finishFlatCoupon item v x = .ok r) :
    ∃ u dv : Value, r = (item.set "unit_price" u).set "digital_coupon_price" dv := by
  unfold finishFlatCoupon at h
  split at h
  · exact Except.noConfusion h
  · split at h
    · exact Except.noConfusion h
    · cases h
      exact ⟨_, _, rfl⟩

theorem buyGetFree_deal_shape : DealShape BuyGetFreeProcessor.calculate_deal := by
  intro item g r h
  unfold BuyGetFreeProcessor.calculate_deal at h
  simp only [] at h
  repeat' (first | (split at h) | (simp only [] at h))
  all_goals first
    | exact Except.noConfusion h
    | exact finishBuyGetDeal_shape h

theorem pricePerLb_deal_shape : DealShape PricePerLbProcessor.calculate_deal := by
  intro item g r h
  unfold PricePerLbProcessor.calculate_deal at h
  split at h
  · exact Except.noConfusion h
  · rename_i ppl hppl
    simp only [] at h
    split at h
    · exact Except.noConfusion h
    · split at h
      · exact Except.noConfusion h
      · rename_i tp htp tp2 htp2
        obtain ⟨a, ha⟩ := pyRound2V_shape htp2
        cases h
        exact ⟨a, ppl, by rw [ha]⟩

theorem savings_deal_shape : DealShape SavingsProcessor.calculate_deal := by
  intro item g r h
  unfold SavingsProcessor.calculate_deal at h
  simp only [] at h
  repeat' (first | (split at h) | (simp only [] at h))
  all_goals first
    | exact Except.noConfusion h
    | exact finishFlatDeal_shape h

theorem dollar_deal_shape : DealShape DollarDiscountProcessor.calculate_deal := by
  intro item g r h
  unfold DollarDiscountProcessor.calculate_deal at h
  simp only [] at h
  repeat' (first | (split at h) | (simp only [] at h))
  all_goals first
    | exact Except.noConfusion h
    | exact finishFlatDeal_shape h

theorem buyGetFree_coupon_shape : CouponShape BuyGetFreeProcessor.calculate_coupon := by
  intro item g r h
  unfold BuyGetFreeProcessor.calculate_coupon at h
  simp only [] at h
  repeat' (first | (split at h) | (simp only [] at h))
  all_goals first
    | exact Except.noConfusion h
    | exact finishBuyGetCoupon_shape h

theorem pricePerLb_coupon_shape : CouponShape PricePerLbProcessor.calculate_coupon := by
  intro item g r h
  unfold PricePerLbProcessor.calculate_coupon at h
  simp only [] at h
  repeat' (first | (split at h) | (simp only [] at h))
  all_goals first
    | exact Except.noConfusion h
    | (cases h; exact ⟨_, _, rfl⟩)

theorem savings_coupon_shape : CouponShape SavingsProcessor.calculate_coupon := by
  intro item g r h
  unfold SavingsProcessor.calculate_coupon at h
  simp only [] at h
  repeat' (first | (split at h) | (simp only [] at h))
  all_goals first
    | exact Except.noConfusion h
    | exact finishFlatCoupon_shape h

theorem dollar_coupon_shape : CouponShape DollarDiscountProcessor.calculate_coupon := by
  intro item g r h
  unfold DollarDiscountProcessor.calculate_coupon at h
  simp only [] at h
  repeat' (first | (split at h) | (simp only [] at h))
  all_goals first
    | exact Except.noConfusion h
    | exact finishFlatCoupon_shape h

/-- Every registered processor's deal calculation has the deal shape. -/
theorem subclasses_deal_shapes : ∀ s ∈ subclasses, DealShape s.calculate_deal := by
  intro s hs
  simp only [subclasses, List.mem_cons, List.mem_singleton, List.not_mem_nil, or_false] at hs
  rcases hs with rfl | rfl | rfl | rfl
  · exact buyGetFree_deal_shape
  · exact pricePerLb_deal_shape
  · exact savings_deal_shape
  · exact dollar_deal_shape

/-- Every registered processor's coupon calculation has the coupon
shape. -/
theorem subclasses_coupon_shapes : ∀ s ∈ subclasses, CouponShape s.calculate_coupon := by
  intro s hs
  simp only [subclasses, List.mem_cons, List.mem_singleton, List.not_mem_nil, or_false] at hs
  rcases hs with rfl | rfl | rfl | rfl
  · exact buyGetFree_coupon_shape
  · exact pricePerLb_coupon_shape
  · exact savings_coupon_shape
  · exact dollar_coupon_shape

/-! ## Preservation of fields the strategies do not compute -/

/-- A successful deal pass changes nothing outside the three output
keys. -/
theorem dealLoop_preserves {cats : List Strategy}
    (hc : ∀ s ∈ cats, DealShape s.calculate_deal) :
    ∀ {item r : Record}, dealLoop cats item = .ok r →
      ∀ k, k ≠ "volume_deals_price" → k ≠ "unit_price" → k ≠ "digital_coupon_price" →
        r.get? k = item.get? k := by
  induction cats with
  | nil =>
      intro item r h k _ _ _
      cases h
      rfl
  | cons s0 rest ih =>
      intro item r h k h1 h2 h3
      unfold dealLoop at h
      split at h
      · exact Except.noConfusion h
      · split at h
        · rename_i desc hdesc g hg
          obtain ⟨a, b, hr⟩ := hc s0 (List.mem_cons_self s0 rest) item g r h
          subst hr
          rw [get?_set_ne _ _ _ _ (Ne.symm h3), get?_set_ne _ _ _ _ (Ne.symm h2),
            get?_set_ne _ _ _ _ (Ne.symm h1)]
        · exact ih (fun s hs => hc s (List.mem_cons_of_mem s0 hs)) h k h1 h2 h3

/-- A successful coupon pass changes nothing outside the two keys it
writes. -/
theorem couponLoop_preserves {cats : List Strategy}
    (hc : ∀ s ∈ cats, CouponShape s.calculate_coupon) :
    ∀ {item r : Record}, couponLoop cats item = .ok r →
      ∀ k, k ≠ "unit_price" → k ≠ "digital_coupon_price" →
        r.get? k = item.get? k := by
  induction cats with
  | nil =>
      intro item r h k _ _
      cases h
      rfl
  | cons s0 rest ih =>
      intro item r h k h2 h3
      unfold couponLoop at h
      split at h
      · exact Except.noConfusion h
      · split at h
        · rename_i desc hdesc g hg
          obtain ⟨u, dv, hr⟩ := hc s0 (List.mem_cons_self s0 rest) item g r h
          subst hr
          rw [get?_set_ne _ _ _ _ (Ne.symm h3), get?_set_ne _ _ _ _ (Ne.symm h2)]
        · exact ih (fun s hs => hc s (List.mem_cons_of_mem s0 hs)) h k h2 h3

/-- Whole-record preservation: a successful `process_single_item` only
ever writes the three pricing keys. -/
theorem process_single_item_preserves {item r : Record}
    (h : process_single_item subclasses item = .ok r) :
    ∀ k, k ≠ "volume_deals_price" → k ≠ "unit_price" → k ≠ "digital_coupon_price" →
      r.get? k = item.get? k := by
  intro k h1 h2 h3
  unfold process_single_item at h
  split at h
  · exact Except.noConfusion h
  · rename_i r1 hdeal
    have hp1 := dealLoop_preserves subclasses_deal_shapes hdeal k h1 h2 h3
    have hp2 := couponLoop_preserves subclasses_coupon_shapes h k h2 h3
    rw [hp2, hp1]

/-! ## Exact formulas for the BuyGetFree strategy -/

/-- The no-discount deal formula: `volume_deals_price = regular_price × N`
rounded, `unit_price = volume_deals_price / (N + M)` rounded, empty
coupon sentinel. -/
theorem buyGetFree_deal_formula (item : Record) (g : Groups) (qs fs : String)
    (N M : ℕ) (p : ℚ)
    (hq : g.quantity = some qs) (hqN : strToNat? qs = some N)
    (hf : g.free = some fs) (hfM : strToNat? fs = some M)
    (hd : g.discount = none) (hNM : N + M ≠ 0)
    (hrp : item.get? "regular_price" = some (.num p)) :
    BuyGetFreeProcessor.calculate_deal item g =
      .ok (Record.set (Record.set
        (Record.set item "volume_deals_price" (.num (round2 (p * N))))
        "unit_price" (.num (round2 (p * N / ((N + M : ℕ) : ℚ)))))
        "digital_coupon_price" (.str "")) := by
  unfold BuyGetFreeProcessor.calculate_deal
  rw [hq, hf, hd]
  simp [pyIntOfGroup, hqN, hfM, Record.getItem, hrp, vMulNat,
    finishBuyGetDeal, vDivNat, hNM, pyRound2V]

/-- A base-price resolution error propagates out of the BuyGetFree
coupon calculation. -/
theorem buyGetFree_coupon_err (item : Record) (g : Groups) (qs fs : String)
    (N M : ℕ) (e : PyErr)
    (hq : g.quantity = some qs) (hqN : strToNat? qs = some N)
    (hf : g.free = some fs) (hfM : strToNat? fs = some M)
    (hd : g.discount = none)
    (hcp : couponPrice item = .error e) :
    BuyGetFreeProcessor.calculate_coupon item g = .error e := by
  unfold BuyGetFreeProcessor.calculate_coupon
  rw [hq, hf, hd]
  simp [pyIntOfGroup, hqN, hfM, hcp]

/-- The no-discount coupon formula over the resolved base price. -/
theorem buyGetFree_coupon_formula (item : Record) (g : Groups) (qs fs : String)
    (N M : ℕ) (q : ℚ)
    (hq : g.quantity = some qs) (hqN : strToNat? qs = some N)
    (hf : g.free = some fs) (hfM : strToNat? fs = some M)
    (hd : g.discount = none) (hNM : N + M ≠ 0)
    (hcp : couponPrice item = .ok q) :
    BuyGetFreeProcessor.calculate_coupon item g =
      .ok (Record.set (Record.set item "unit_price"
        (.num (round2 (q * N / ((N + M : ℕ) : ℚ)))))
        "digital_coupon_price" (.num (q * N))) := by
  unfold BuyGetFreeProcessor.calculate_coupon
  rw [hq, hf, hd]
  simp [pyIntOfGroup, hqN, hfM, hcp, finishBuyGetCoupon, hNM]

/-! ## Characterization of the coupon base-price chain -/

/-- A truthy `unit_price` is preferred. -/
theorem couponBase_unit (item : Record) (v : Value)
    (hu : item.get? "unit_price" = some v) (ht : truthyO (some v) = true) :
    couponBase item = v := by
  unfold couponBase
  rw [hu]
  simp [pyOr, ht]

/-- With a falsy (or absent) `unit_price`, a truthy `sale_price` is
used. -/
theorem couponBase_sale (item : Record) (v : Value)
    (hu : truthyO (item.get? "unit_price") = false)
    (hs : item.get? "sale_price" = some v) (ht : truthyO (some v) = true) :
    couponBase item = v := by
  unfold couponBase
  rw [hs]
  simp [pyOr, hu, ht]

/-- With falsy `unit_price` and `sale_price`, the raw `regular_price`
(default 0) is used. -/
theorem couponBase_regular (item : Record)
    (hu : truthyO (item.get? "unit_price") = false)
    (hs : truthyO (item.get? "sale_price") = false) :
    couponBase item = (item.get? "regular_price").getD (.num 0) := by
  unfold couponBase
  simp [pyOr, hu, hs]

/-- A falsy resolved base value coerces to 0, not to `float(...)`. -/
theorem couponPrice_falsy (item : Record)
    (h : truthyO (some (couponBase item)) = false) :
    couponPrice item = .ok 0 := by
  unfold couponPrice
  simp [h]

/-- A truthy string base that bare `float()` cannot parse raises
`ValueError` — no currency-symbol or separator stripping happens. -/
theorem couponPrice_badStr (item : Record) (s : String)
    (hb : couponBase item = .str s) (hs : s ≠ "")
    (hp : pyFloat? s = none) :
    couponPrice item = .error .valueError := by
  unfold couponPrice
  rw [hb]
  simp [truthyO, hs, pyFloatV, pyFloatOfStr, hp]

/-- A nonzero numeric base passes through `float()` unchanged. -/
theorem couponPrice_num (item : Record) (q : ℚ)
    (hb : couponBase item = .num q) (hq : q ≠ 0) :
    couponPrice item = .ok q := by
  unfold couponPrice
  rw [hb]
  simp [truthyO, hq, pyFloatV]

/-! ## Case analysis of the PricePerLb deal calculation over the raw
weight field -/

/-- The raw `weight` value is multiplied directly: absent defaults to 1,
a number is used as-is, a string raises `TypeError`. -/
theorem pricePerLb_deal_cases (item : Record) (g : Groups) (s : String) (X : ℚ)
    (hg : g.price_per_lb = some s) (hX : pyFloat? s = some X) :
    (item.get? "weight" = none →
      PricePerLbProcessor.calculate_deal item g =
        .ok (Record.set (Record.set
          (Record.set item "volume_deals_price" (.num (round2 (X * 1))))
          "unit_price" (.num (round2 X))) "digital_coupon_price" (.str ""))) ∧
    (∀ w : ℚ, item.get? "weight" = some (.num w) →
      PricePerLbProcessor.calculate_deal item g =
        .ok (Record.set (Record.set
          (Record.set item "volume_deals_price" (.num (round2 (X * w))))
          "unit_price" (.num (round2 X))) "digital_coupon_price" (.str ""))) ∧
    (∀ t : String, item.get? "weight" = some (.str t) →
      PricePerLbProcessor.calculate_deal item g = .error .typeError) := by
  refine ⟨fun hw => ?_, fun w hw => ?_, fun t hw => ?_⟩ <;>
    (unfold PricePerLbProcessor.calculate_deal) <;>
    rw [hg] <;>
    simp [pyFloatOfGroup, pyFloatOfStr, hX, Record.getD, hw, ratMulV, pyRound2V]

/-! ## Concrete records and matches used by the claim theorems -/

/-- Record with empty descriptions: no pattern matches. -/
def recNoMatch : Record :=
  [("volume_deals_description", .str ""), ("digital_coupon_short_description", .str "")]

/-- Record with nonempty descriptions matching no pattern. -/
def recUnmatched : Record :=
  [("volume_deals_description", .str "member special"),
   ("digital_coupon_short_description", .str "clip to save"),
   ("regular_price", .num 5)]

/-- The spec's first worked example. -/
def exBuy4 : Record :=
  [("volume_deals_description", .str "Buy 4, Get 1 Free"),
   ("digital_coupon_short_description", .str ""), ("regular_price", .num 10)]

/-- The spec's second worked example. -/
def exBuy3 : Record :=
  [("volume_deals_description", .str "Buy 3, get 1 20% off"),
   ("digital_coupon_short_description", .str ""), ("regular_price", .num 9)]

/-- Groups captured from `Buy 4, Get 1 Free`. -/
def gD4 : Groups := ⟨some "4", some "1", none, none, none⟩

/-- Groups captured from `Buy 2, Get 1 Free`. -/
def gD21 : Groups := ⟨some "2", some "1", none, none, none⟩

/-- Groups captured from `Save $2`. -/
def gS2 : Groups := ⟨none, none, none, some "2", none⟩

/-- Groups captured from `$3.50/lb`. -/
def gLb : Groups := ⟨none, none, none, none, some "3.50"⟩

/-- The record the deal pass produces from `exBuy4`, values kept in the
symbolic form the calculation builds. -/
def r40sym : Record :=
  Record.set (Record.set
    (Record.set exBuy4 "volume_deals_price" (.num (round2 (10 * ((4 : ℕ) : ℚ)))))
    "unit_price" (.num (round2 (10 * ((4 : ℕ) : ℚ) / ((5 : ℕ) : ℚ)))))
    "digital_coupon_price" (.str "")

/-- The discount-branch total for `exBuy3`:
`regularPrice×N + regularPrice×(1−X/100)×M`. -/
def vdp34 : ℚ := 9 * ((3 : ℕ) : ℚ) + 9 * (1 - ((20 : ℕ) : ℚ) / 100) * ((1 : ℕ) : ℚ)

/-- The record the deal pass produces from `exBuy3`. -/
def r34sym : Record :=
  Record.set (Record.set
    (Record.set exBuy3 "volume_deals_price" (.num (round2 vdp34)))
    "unit_price" (.num (round2 (vdp34 / ((4 : ℕ) : ℚ)))))
    "digital_coupon_price" (.str "")

/-- Record whose deal description matches BuyGetFree but which lacks
`regular_price`, so the strategy raises `KeyError`. -/
def recBoom : Record :=
  [("volume_deals_description", .str "Buy 2, Get 1 Free"),
   ("digital_coupon_short_description", .str "Save $1"),
   ("sale_price", .num 5), ("price", .num 5), ("unit_price", .num 4),
   ("product_title", .str "x")]

/-- Record whose coupon description matches BuyGetFree and whose
`sale_price` is a currency string `float()` rejects. -/
def recC7e : Record :=
  [("volume_deals_description", .str ""),
   ("digital_coupon_short_description", .str "Buy 2, Get 1 Free"),
   ("sale_price", .str "$1,000")]

/-- Record whose deal description matches the price-per-lb pattern and
whose `weight` field is the string "2 lb". -/
def recC8e : Record :=
  [("volume_deals_description", .str "$3.50/lb"),
   ("digital_coupon_short_description", .str ""), ("weight", .str "2 lb")]

/-- Record whose coupon description matches the price-per-lb pattern but
which carries no `unit_price` key. -/
def recC9 : Record :=
  [("volume_deals_description", .str ""),
   ("digital_coupon_short_description", .str "$3.50/lb")]

/-- Record carrying a legitimately-zero `unit_price` from a prior pass
and a nonzero `sale_price`. -/
def recC10 : Record := [("unit_price", .num 0), ("sale_price", .num 4)]

/-- `exBuy4` with the description upper-cased. -/
def recUpper : Record :=
  [("volume_deals_description", .str "BUY 4, GET 1 FREE"),
   ("digital_coupon_short_description", .str ""), ("regular_price", .num 10)]

/-- Record whose deal description matches two catalog patterns
(BuyGetFree and DollarDiscount) and whose coupon description matches two
(Savings and DollarDiscount). -/
def recMulti : Record :=
  [("volume_deals_description", .str "Buy 2, Get 1 Free or $3 off"),
   ("digital_coupon_short_description", .str "Save $2 or $1 off"),
   ("regular_price", .num 6)]

/-! ## Claim C1 -/

/-- Claim C1 counterexample: on a record matching no pattern in either
pass, `process_single_item` returns the record unchanged and the keys
`volume_deals_price`, `unit_price`, `digital_coupon_price` are absent,
contradicting the claim that every processed record carries them. -/
theorem C1_counterexample :
    process_single_item subclasses recNoMatch = .ok recNoMatch ∧
    Record.get? recNoMatch "volume_deals_price" = none ∧
    Record.get? recNoMatch "unit_price" = none ∧
    Record.get? recNoMatch "digital_coupon_price" = none :=
  ⟨rfl, rfl, rfl, rfl⟩

/-- Claim C1 amended: when the deal pass matches a pattern and the
matched strategy's computation succeeds, and the coupon pass matches
nothing, the output record carries `volume_deals_price` and `unit_price`
as numbers rounded to 2 decimal places (an integer over 100) and
`digital_coupon_price` as the empty-string sentinel; when no pattern
matches, the keys are simply absent unless present in the input. -/
theorem C1_amended (item r : Record) (d d2 : String) (s : Strategy) (p : Pat)
    (g : Groups)
    (hd : getDesc item "volume_deals_description" = .ok d)
    (hfind : (flatCatalog subclasses).find? (fun sp => (sp.2.search d).isSome) = some (s, p))
    (hsearch : p.search d = some g)
    (hcalc : s.calculate_deal item g = .ok r)
    (hd2 : getDesc r "digital_coupon_short_description" = .ok d2)
    (hnone : (flatCatalog subclasses).find? (fun sp => (sp.2.search d2).isSome) = none) :
    process_single_item subclasses item = .ok r ∧
    (∃ z : ℤ, Record.get? r "volume_deals_price" = some (.num ((z : ℚ) / 100))) ∧
    (∃ z : ℤ, Record.get? r "unit_price" = some (.num ((z : ℚ) / 100))) ∧
    Record.get? r "digital_coupon_price" = some (.str "") := by
  have hdl : dealLoop subclasses item = s.calculate_deal item g :=
    (dealLoop_flat subclasses item d hd).2 s p g hfind hsearch
  have hcl : couponLoop subclasses r = .ok r :=
    (couponLoop_flat subclasses r d2 hd2).1 hnone
  have hproc : process_single_item subclasses item = .ok r := by
    unfold process_single_item
    rw [hdl, hcalc]
    exact hcl
  have hmem : (s, p) ∈ flatCatalog subclasses := List.mem_of_find?_eq_some hfind
  have hflat : flatCatalog subclasses =
      [(BuyGetFreeProcessor, .buyGetFree), (BuyGetFreeProcessor, .buyGetDiscount),
       (PricePerLbProcessor, .pricePerLb), (SavingsProcessor, .savePromo),
       (DollarDiscountProcessor, .dollarOff)] := rfl
  rw [hflat] at hmem
  have hshape : DealShape s.calculate_deal := by
    simp only [List.mem_cons, List.not_mem_nil, or_false] at hmem
    rcases hmem with h | h | h | h | h <;>
      · injection h with h1 h2
        subst h1
        first
          | exact buyGetFree_deal_shape
          | exact pricePerLb_deal_shape
          | exact savings_deal_shape
          | exact dollar_deal_shape
  obtain ⟨a, b, hr⟩ := hshape item g r hcalc
  subst hr
  refine ⟨hproc, ⟨round (a * 100), ?_⟩, ⟨round (b * 100), ?_⟩, ?_⟩
  · rw [get?_set_ne _ _ _ _ (by decide), get?_set_ne _ _ _ _ (by decide),
      get?_set_self]
    rfl
  · rw [get?_set_ne _ _ _ _ (by decide), get?_set_self]
    rfl
  · rw [get?_set_self]

/-- Claim C1 witness: the amended statement at the `Buy 4, Get 1 Free`
example. -/
theorem C1_witness :
    process_single_item subclasses exBuy4 = .ok r40sym ∧
    (∃ z : ℤ, Record.get? r40sym "volume_deals_price" = some (.num ((z : ℚ) / 100))) ∧
    (∃ z : ℤ, Record.get? r40sym "unit_price" = some (.num ((z : ℚ) / 100))) ∧
    Record.get? r40sym "digital_coupon_price" = some (.str "") :=
  C1_amended exBuy4 r40sym "Buy 4, Get 1 Free" "" BuyGetFreeProcessor .buyGetFree gD4
    rfl rfl rfl rfl rfl rfl

/-! ## Claim C2 -/

/-- Claim C2: in each pass, the catalog's (processor, pattern) entries
are consulted in registration order, the first entry whose pattern
matches the description wins, exactly that entry's strategy runs, and if
no entry matches the pass is the identity. -/
theorem C2_theorem (cats : List Strategy) (item : Record) :
    (∀ d, getDesc item "volume_deals_description" = .ok d →
      ((flatCatalog cats).find? (fun sp => (sp.2.search d).isSome) = none →
        dealLoop cats item = .ok item) ∧
      (∀ s p g, (flatCatalog cats).find? (fun sp => (sp.2.search d).isSome) = some (s, p) →
        p.search d = some g → dealLoop cats item = s.calculate_deal item g)) ∧
    (∀ d, getDesc item "digital_coupon_short_description" = .ok d →
      ((flatCatalog cats).find? (fun sp => (sp.2.search d).isSome) = none →
        couponLoop cats item = .ok item) ∧
      (∀ s p g, (flatCatalog cats).find? (fun sp => (sp.2.search d).isSome) = some (s, p) →
        p.search d = some g → couponLoop cats item = s.calculate_coupon item g)) :=
  ⟨fun d hd => dealLoop_flat cats item d hd,
   fun d hd => couponLoop_flat cats item d hd⟩

/-- Claim C2 witness: on a record whose descriptions each match two
catalog entries, each pass runs exactly the earlier-registered entry's
strategy. -/
theorem C2_witness :
    dealLoop subclasses recMulti = BuyGetFreeProcessor.calculate_deal recMulti gD21 ∧
    couponLoop subclasses recMulti = SavingsProcessor.calculate_coupon recMulti gS2 :=
  ⟨((C2_theorem subclasses recMulti).1 "Buy 2, Get 1 Free or $3 off" rfl).2 _ _ _ rfl rfl,
   ((C2_theorem subclasses recMulti).2 "Save $2 or $1 off" rfl).2 _ _ _ rfl rfl⟩

/-! ## Claim C3 -/

/-- Claim C3 counterexample: a strategy exception is NOT caught. On
`recBoom` the deal-pass strategy raises `KeyError`, the error escapes
`process_single_item` and the batch runner, and the coupon pass never
runs even though the coupon description `Save $1` matches a pattern. -/
theorem C3_counterexample :
    process_single_item subclasses recBoom = .error (.keyError "regular_price") ∧
    process_item subclasses [recBoom] = .error (.keyError "regular_price") ∧
    (Pat.savePromo.search "Save $1").isSome = true :=
  ⟨rfl, rfl, rfl⟩

/-- Claim C3 amended: an exception raised by the matched deal strategy
propagates uncaught: `process_single_item` returns that error, the
coupon pass does not execute, and a batch containing the record aborts
with the same error (subsequent records unprocessed). -/
theorem C3_amended (cats : List Strategy) (item : Record) (d : String)
    (s : Strategy) (p : Pat) (g : Groups) (e : PyErr)
    (hd : getDesc item "volume_deals_description" = .ok d)
    (hfind : (flatCatalog cats).find? (fun sp => (sp.2.search d).isSome) = some (s, p))
    (hsearch : p.search d = some g)
    (hcalc : s.calculate_deal item g = .error e) :
    process_single_item cats item = .error e ∧
    ∀ rest, process_item cats (item :: rest) = .error e := by
  have hdl : dealLoop cats item = s.calculate_deal item g :=
    (dealLoop_flat cats item d hd).2 s p g hfind hsearch
  have h1 : process_single_item cats item = .error e := by
    unfold process_single_item
    rw [hdl, hcalc]
  refine ⟨h1, fun rest => ?_⟩
  unfold process_item
  rw [h1]

/-- Claim C3 witness: the amended statement at `recBoom`. -/
theorem C3_witness :
    process_single_item subclasses recBoom = .error (.keyError "regular_price") ∧
    process_item subclasses (recBoom :: [recNoMatch]) = .error (.keyError "regular_price") := by
  have h := C3_amended subclasses recBoom "Buy 2, Get 1 Free" BuyGetFreeProcessor
    .buyGetFree gD21 (.keyError "regular_price") rfl rfl rfl rfl
  exact ⟨h.1, h.2 [recNoMatch]⟩

/-! ## Claim C4 -/

/-- Claim C4: with no discount group the deal pass computes
`volume_deals_price = round(p × N, 2)` and
`unit_price = round(p × N / (N + M), 2)`; `Buy 4, Get 1 Free` at
regular price 10.00 yields 40.00 and 8.00, and `Buy 3, get 1 20% off`
at 9.00 yields 34.20 and 8.55 by the discount-group formula. -/
theorem C4_theorem :
    (∀ (item : Record) (g : Groups) (qs fs : String) (N M : ℕ) (p : ℚ),
      g.quantity = some qs → strToNat? qs = some N →
      g.free = some fs → strToNat? fs = some M →
      g.discount = none → N + M ≠ 0 →
      Record.get? item "regular_price" = some (.num p) →
      BuyGetFreeProcessor.calculate_deal item g =
        .ok (Record.set (Record.set
          (Record.set item "volume_deals_price" (.num (round2 (p * N))))
          "unit_price" (.num (round2 (p * N / ((N + M : ℕ) : ℚ)))))
          "digital_coupon_price" (.str ""))) ∧
    (∃ r, process_single_item subclasses exBuy4 = .ok r ∧
      Record.get? r "volume_deals_price" = some (.num 40) ∧
      Record.get? r "unit_price" = some (.num 8)) ∧
    (∃ r, process_single_item subclasses exBuy3 = .ok r ∧
      Record.get? r "volume_deals_price" = some (.num 34.2) ∧
      Record.get? r "unit_price" = some (.num 8.55)) := by
  refine ⟨fun item g qs fs N M p hq hqN hf hfM hd hNM hrp =>
    buyGetFree_deal_formula item g qs fs N M p hq hqN hf hfM hd hNM hrp, ?_, ?_⟩
  · refine ⟨r40sym, rfl, ?_, ?_⟩
    · have h : Record.get? r40sym "volume_deals_price" =
          some (.num (round2 (10 * ((4 : ℕ) : ℚ)))) := rfl
      rw [h]
      norm_num [round2, round_eq]
    · have h : Record.get? r40sym "unit_price" =
          some (.num (round2 (10 * ((4 : ℕ) : ℚ) / ((5 : ℕ) : ℚ)))) := rfl
      rw [h]
      norm_num [round2, round_eq]
  · refine ⟨r34sym, rfl, ?_, ?_⟩
    · have h : Record.get? r34sym "volume_deals_price" =
          some (.num (round2 vdp34)) := rfl
      rw [h]
      norm_num [vdp34, round2, round_eq]
    · have h : Record.get? r34sym "unit_price" =
          some (.num (round2 (vdp34 / ((4 : ℕ) : ℚ)))) := rfl
      rw [h]
      norm_num [vdp34, round2, round_eq]

/-- Claim C4 witness: the general formula applied at
`Buy 4, Get 1 Free`, regular price 10. -/
theorem C4_witness :
    BuyGetFreeProcessor.calculate_deal [("regular_price", Value.num 10)] gD4 =
      .ok (Record.set (Record.set
        (Record.set [("regular_price", Value.num 10)] "volume_deals_price"
          (.num (round2 (10 * ((4 : ℕ) : ℚ)))))
        "unit_price" (.num (round2 (10 * ((4 : ℕ) : ℚ) / (((4 + 1 : ℕ)) : ℚ)))))
        "digital_coupon_price" (.str "")) :=
  C4_theorem.1 [("regular_price", Value.num 10)] gD4 "4" "1" 4 1 10
    rfl rfl rfl rfl rfl (by decide) rfl

/-! ## Claim C5 -/

/-- Claim C5 counterexample: the processor performs no rename. On a
record matching nothing, the output still carries
`digital_coupon_short_description` and never gains
`digital_coupon_description`. -/
theorem C5_counterexample :
    process_single_item subclasses recUnmatched = .ok recUnmatched ∧
    Record.get? recUnmatched "digital_coupon_short_description" =
      some (.str "clip to save") ∧
    Record.get? recUnmatched "digital_coupon_description" = none :=
  ⟨rfl, rfl, rfl⟩

/-- Claim C5 amended: after both passes no rename occurs —
`digital_coupon_short_description` keeps its input binding,
`digital_coupon_description` is exactly as in the input (never created),
and every field other than the three pricing outputs is preserved
verbatim. -/
theorem C5_amended (item r : Record)
    (h : process_single_item subclasses item = .ok r) :
    (∀ k, k ≠ "volume_deals_price" → k ≠ "unit_price" →
      k ≠ "digital_coupon_price" → Record.get? r k = Record.get? item k) ∧
    Record.get? r "digital_coupon_short_description" =
      Record.get? item "digital_coupon_short_description" ∧
    Record.get? r "digital_coupon_description" =
      Record.get? item "digital_coupon_description" :=
  ⟨process_single_item_preserves h,
   process_single_item_preserves h _ (by decide) (by decide) (by decide),
   process_single_item_preserves h _ (by decide) (by decide) (by decide)⟩

/-- Claim C5 witness: the amended statement at the `Buy 4, Get 1 Free`
example. -/
theorem C5_witness :
    Record.get? r40sym "digital_coupon_short_description" =
      Record.get? exBuy4 "digital_coupon_short_description" ∧
    Record.get? r40sym "digital_coupon_description" =
      Record.get? exBuy4 "digital_coupon_description" :=
  ⟨(C5_amended exBuy4 r40sym rfl).2.1, (C5_amended exBuy4 r40sym rfl).2.2⟩

/-! ## Claim C6 -/

/-- Claim C6 counterexample: matching is not case-insensitive.
`Buy 4, Get 1 Free` matches the BuyGetFree pattern, but its upper-case
variant — the same string up to letter case — matches nothing. -/
theorem C6_counterexample :
    lcList "Buy 4, Get 1 Free".data = lcList "BUY 4, GET 1 FREE".data ∧
    "Buy 4, Get 1 Free" ≠ "BUY 4, GET 1 FREE" ∧
    (Pat.buyGetFree.search "Buy 4, Get 1 Free").isSome = true ∧
    Pat.buyGetFree.search "BUY 4, GET 1 FREE" = none :=
  ⟨rfl, by decide, rfl, rfl⟩

/-- Claim C6 amended: pattern matching is case-sensitive (`re.search`
is called without `re.IGNORECASE`): `Buy 4, Get 1 Free` matches and is
processed, while its upper-case variant matches no catalog pattern and
both passes leave the record untouched. -/
theorem C6_amended :
    Pat.buyGetFree.search "Buy 4, Get 1 Free" = some gD4 ∧
    Pat.buyGetFree.search "BUY 4, GET 1 FREE" = none ∧
    Pat.buyGetDiscount.search "BUY 4, GET 1 FREE" = none ∧
    Pat.savePromo.search "BUY 4, GET 1 FREE" = none ∧
    Pat.dollarOff.search "BUY 4, GET 1 FREE" = none ∧
    Pat.pricePerLb.search "BUY 4, GET 1 FREE" = none ∧
    process_single_item subclasses recUpper = .ok recUpper ∧
    process_single_item subclasses exBuy4 = .ok r40sym :=
  ⟨rfl, rfl, rfl, rfl, rfl, rfl, rfl, rfl⟩

/-! ## Claim C7 -/

/-- Claim C7 counterexample: the coupon base price is NOT coerced like
`resolvePrice`: no currency symbol or separator stripping happens and
coercion failure raises. With `sale_price = "$1,000"` the BuyGetFree
coupon calculation raises `ValueError`, which escapes
`process_single_item`. -/
theorem C7_counterexample :
    BuyGetFreeProcessor.calculate_coupon [("sale_price", Value.str "$1,000")] gD21 =
      .error .valueError ∧
    process_single_item subclasses recC7e = .error .valueError :=
  ⟨rfl, rfl⟩

/-- Claim C7 amended: the coupon base value prefers a truthy
`unit_price`, else a truthy `sale_price`, else the raw `regular_price`
(default 0); a falsy resolved value yields price 0; a truthy string is
passed to bare `float()` with no stripping, and an unparsable string
raises `ValueError`, which propagates out of the coupon calculation. -/
theorem C7_amended (item : Record) :
    (∀ v, Record.get? item "unit_price" = some v → truthyO (some v) = true →
      couponBase item = v) ∧
    (truthyO (Record.get? item "unit_price") = false →
      ∀ v, Record.get? item "sale_price" = some v → truthyO (some v) = true →
        couponBase item = v) ∧
    (truthyO (Record.get? item "unit_price") = false →
      truthyO (Record.get? item "sale_price") = false →
      couponBase item = (Record.get? item "regular_price").getD (.num 0)) ∧
    (truthyO (some (couponBase item)) = false → couponPrice item = .ok 0) ∧
    (∀ s, couponBase item = .str s → s ≠ "" → pyFloat? s = none →
      couponPrice item = .error .valueError) ∧
    (∀ g qs fs N M e, g.quantity = some qs → strToNat? qs = some N →
      g.free = some fs → strToNat? fs = some M → g.discount = none →
      couponPrice item = .error e →
      BuyGetFreeProcessor.calculate_coupon item g = .error e) :=
  ⟨fun v hu ht => couponBase_unit item v hu ht,
   fun hu v hs ht => couponBase_sale item v hu hs ht,
   fun hu hs => couponBase_regular item hu hs,
   fun h => couponPrice_falsy item h,
   fun s hb hs hp => couponPrice_badStr item s hb hs hp,
   fun g qs fs N M e h1 h2 h3 h4 h5 h6 =>
     buyGetFree_coupon_err item g qs fs N M e h1 h2 h3 h4 h5 h6⟩

/-- Claim C7 witness: the amended statement at
`sale_price = "$1,000"`. -/
theorem C7_witness :
    couponPrice [("sale_price", Value.str "$1,000")] = .error .valueError ∧
    BuyGetFreeProcessor.calculate_coupon [("sale_price", Value.str "$1,000")] gD21 =
      .error .valueError := by
  have h := C7_amended [("sale_price", Value.str "$1,000")]
  have hcp := h.2.2.2.2.1 "$1,000" rfl (by decide) rfl
  exact ⟨hcp, h.2.2.2.2.2 gD21 "2" "1" 2 1 .valueError rfl rfl rfl rfl rfl hcp⟩

/-! ## Claim C8 -/

/-- Claim C8 counterexample: the weight is NOT parsed from its leading
numeric token. With `weight = "2 lb"` the price-per-lb deal calculation
raises `TypeError` (float × str) instead of yielding
`round(3.50 × 2, 2)`, and the error escapes `process_single_item`. -/
theorem C8_counterexample :
    PricePerLbProcessor.calculate_deal [("weight", Value.str "2 lb")] gLb =
      .error .typeError ∧
    process_single_item subclasses recC8e = .error .typeError :=
  ⟨rfl, rfl⟩

/-- Claim C8 amended: the deal pass uses the raw `weight` field with no
parsing: an absent weight defaults to 1, a numeric weight `w` yields
`volume_deals_price = round(X × w, 2)` and `unit_price = round(X, 2)`,
and a string weight (such as "2 lb") raises `TypeError`. -/
theorem C8_amended (item : Record) (g : Groups) (s : String) (X : ℚ)
    (hg : g.price_per_lb = some s) (hX : pyFloat? s = some X) :
    (Record.get? item "weight" = none →
      PricePerLbProcessor.calculate_deal item g =
        .ok (Record.set (Record.set
          (Record.set item "volume_deals_price" (.num (round2 (X * 1))))
          "unit_price" (.num (round2 X))) "digital_coupon_price" (.str ""))) ∧
    (∀ w : ℚ, Record.get? item "weight" = some (.num w) →
      PricePerLbProcessor.calculate_deal item g =
        .ok (Record.set (Record.set
          (Record.set item "volume_deals_price" (.num (round2 (X * w))))
          "unit_price" (.num (round2 X))) "digital_coupon_price" (.str ""))) ∧
    (∀ t : String, Record.get? item "weight" = some (.str t) →
      PricePerLbProcessor.calculate_deal item g = .error .typeError) :=
  pricePerLb_deal_cases item g s X hg hX

/-- Claim C8 witness: the amended statement at weight 2 (numeric) and
at weight "2 lb" (string). -/
theorem C8_witness :
    PricePerLbProcessor.calculate_deal [("weight", Value.num 2)] gLb =
      .ok (Record.set (Record.set
        (Record.set [("weight", Value.num 2)] "volume_deals_price"
          (.num (round2 (mkRat 7 2 * 2))))
        "unit_price" (.num (round2 (mkRat 7 2)))) "digital_coupon_price" (.str "")) ∧
    PricePerLbProcessor.calculate_deal [("weight", Value.str "2 lb")] gLb =
      .error .typeError := by
  have h1 := C8_amended [("weight", Value.num 2)] gLb "3.50" (mkRat 7 2) rfl rfl
  have h2 := C8_amended [("weight", Value.str "2 lb")] gLb "3.50" (mkRat 7 2) rfl rfl
  exact ⟨h1.2.1 2 rfl, h2.2.2 "2 lb" rfl⟩

/-! ## Claim C9 -/

/-- Claim C9: on a record whose coupon description matches the
price-per-lb pattern and which carries no `unit_price` key, the coupon
strategy's unguarded `item_data['unit_price']` lookup raises `KeyError`
instead of producing an updated record, and the error escapes
`process_single_item`. -/
theorem C9_theorem :
    Record.get? recC9 "unit_price" = none ∧
    (Pat.pricePerLb.search "$3.50/lb").isSome = true ∧
    PricePerLbProcessor.calculate_coupon recC9 gLb = .error (.keyError "unit_price") ∧
    process_single_item subclasses recC9 = .error (.keyError "unit_price") :=
  ⟨rfl, rfl, rfl, rfl⟩

/-! ## Claim C10 -/

/-- Claim C10: the BuyGetFree coupon base-price chain treats a falsy
`unit_price` (0 or the empty string) as absent: the coupon is computed
from `sale_price` when that is a nonzero number, else from
`regular_price`, so a legitimately computed unit price of 0 is never
propagated. -/
theorem C10_theorem (item : Record) (g : Groups) (qs fs : String) (N M : ℕ)
    (v : Value)
    (hq : g.quantity = some qs) (hqN : strToNat? qs = some N)
    (hf : g.free = some fs) (hfM : strToNat? fs = some M)
    (hd : g.discount = none) (hNM : N + M ≠ 0)
    (hu : Record.get? item "unit_price" = some v)
    (hv : v = .num 0 ∨ v = .str "") :
    (∀ sp : ℚ, Record.get? item "sale_price" = some (.num sp) → sp ≠ 0 →
      BuyGetFreeProcessor.calculate_coupon item g =
        .ok (Record.set (Record.set item "unit_price"
          (.num (round2 (sp * N / ((N + M : ℕ) : ℚ)))))
          "digital_coupon_price" (.num (sp * N)))) ∧
    (truthyO (Record.get? item "sale_price") = false →
      ∀ rp : ℚ, Record.get? item "regular_price" = some (.num rp) → rp ≠ 0 →
      BuyGetFreeProcessor.calculate_coupon item g =
        .ok (Record.set (Record.set item "unit_price"
          (.num (round2 (rp * N / ((N + M : ℕ) : ℚ)))))
          "digital_coupon_price" (.num (rp * N)))) := by
  have hufalse : truthyO (Record.get? item "unit_price") = false := by
    rw [hu]
    rcases hv with rfl | rfl <;> simp [truthyO]
  constructor
  · intro sp hs hsp
    have hb : couponBase item = .num sp :=
      couponBase_sale item (.num sp) hufalse hs (by simp [truthyO, hsp])
    exact buyGetFree_coupon_formula item g qs fs N M sp hq hqN hf hfM hd hNM
      (couponPrice_num item sp hb hsp)
  · intro hsf rp hr hrp
    have hb : couponBase item = .num rp := by
      rw [couponBase_regular item hufalse hsf, hr]
      rfl
    exact buyGetFree_coupon_formula item g qs fs N M rp hq hqN hf hfM hd hNM
      (couponPrice_num item rp hb hrp)

/-- Claim C10 witness: with `unit_price = 0` and `sale_price = 4`, the
coupon for `Buy 2, Get 1 Free` is computed from 4, not 0. -/
theorem C10_witness :
    BuyGetFreeProcessor.calculate_coupon recC10 gD21 =
      .ok (Record.set (Record.set recC10 "unit_price"
        (.num (round2 ((4 : ℚ) * ((2 : ℕ) : ℚ) / (((2 + 1 : ℕ)) : ℚ)))))
        "digital_coupon_price" (.num ((4 : ℚ) * ((2 : ℕ) : ℚ)))) :=
  (C10_theorem recC10 gD21 "2" "1" 2 1 (Value.num 0)
    rfl rfl rfl rfl rfl (by decide) rfl (Or.inl rfl)).1 4 rfl (by norm_num)

end PromoProc

